import Mathlib

/-!
Shallow embedding of the Pokédex catalog viewer (src/App.tsx, src/PokemonCard.tsx).

The remote HTTP+JSON API is modelled as an oracle (`Network`): each endpoint is a
function from the request URL to a `FetchResult`, which distinguishes a successful
response (`ok`), a response with a non-success HTTP status (`httpErr`, the
`!res.ok` branch in the source), and a rejected promise / thrown exception
(`thrown`, the branch caught by the surrounding `try/catch`).

React component state (`useState` hooks of `App`) is modelled as an explicit
`AppState` record, and each handler or effect body as a function from state to
state.  Handlers that start detail hydrations additionally return the list of
detail URLs they hydrate, so that "no new network fetch is issued" is expressible.
-/

/-- Outcome of one `fetch` call in the source: successful response, response with
a non-success status (`!res.ok`), or a rejected promise / thrown exception. -/
inductive FetchResult (α : Type) where
  | ok (val : α)
  | httpErr
  | thrown
deriving DecidableEq, Repr

/-- `interface Pokemon { name; url }` — an index entry from the listing endpoint. -/
structure Pokemon where
  name : String
  url : String
deriving DecidableEq, Repr

/-- The `type` object inside a type slot: `{ name, url }`. -/
structure TypeRef where
  name : String
  url : String
deriving DecidableEq, Repr

/-- One element of `detailData.types`: `{ slot, type: { name, url } }`. -/
structure TypeSlot where
  slot : Nat
  type : TypeRef
deriving DecidableEq, Repr

/-- One element of `damage_relations.double_damage_from`: `{ name }`. -/
structure DamageRelation where
  name : String
deriving DecidableEq, Repr

/-- The `damage_relations` object of a type's JSON. -/
structure DamageRelations where
  double_damage_from : List DamageRelation
deriving DecidableEq, Repr

/-- The JSON returned by a type URL, as far as the source reads it. -/
structure TypeData where
  damage_relations : DamageRelations
deriving DecidableEq, Repr

/-- The `sprites` object of a creature's detail JSON, as far as the source reads it. -/
structure Sprites where
  front_default : String
deriving DecidableEq, Repr

/-- The creature detail JSON, as far as the source reads it. -/
structure DetailData where
  name : String
  id : Nat
  sprites : Sprites
  types : List TypeSlot
deriving DecidableEq, Repr

/-- `interface PokemonDetail` — a hydrated creature record. -/
structure PokemonDetail where
  name : String
  id : Nat
  sprites : Sprites
  types : List TypeSlot
  weaknesses : List String
deriving DecidableEq, Repr

/-- The remote API as an oracle: the listing endpoint, the creature detail
endpoint (keyed by detail URL) and the type endpoint (keyed by type URL). -/
structure Network where
  listing : FetchResult (List Pokemon)
  detail : String → FetchResult DetailData
  typeRel : String → FetchResult TypeData

/-- `const POKEMON_TOTAL_LIMIT = 10000`. -/
def POKEMON_TOTAL_LIMIT : Nat := 10000

/-- `const POKEMON_DISPLAY_LIMIT = 300`. -/
def POKEMON_DISPLAY_LIMIT : Nat := 300

/-- JS `String.prototype.toLowerCase` on the ASCII range, per character
(`'A'..'Z'` map to `'a'..'z'`, everything else is fixed). -/
def lowerChar (c : Char) : Char :=
  if 65 ≤ c.toNat ∧ c.toNat ≤ 90 then Char.ofNat (c.toNat + 32) else c

/-- JS `s.toLowerCase()`. -/
def strToLower (s : String) : String :=
  ⟨s.data.map lowerChar⟩

/-- `leadsWith hay needle`: `needle` is an initial segment of `hay`. -/
def leadsWith : List Char → List Char → Bool
  | _, [] => true
  | [], _ :: _ => false
  | h :: hs, n :: ns => h = n && leadsWith hs ns

/-- `hasSub hay needle`: `needle` occurs contiguously inside `hay`. -/
def hasSub : List Char → List Char → Bool
  | [], ns => leadsWith [] ns
  | h :: t, ns => leadsWith (h :: t) ns || hasSub t ns

/-- JS `hay.includes(needle)` (substring containment). -/
def strIncludes (hay needle : String) : Bool :=
  hasSub hay.data needle.data

/-- The inner `forEach` of the weakness loop: push each relation name not already
present (`if (!weaknesses.includes(relation.name)) weaknesses.push(relation.name)`). -/
def addRelations (weaknesses : List String) (rels : List DamageRelation) : List String :=
  rels.foldl (fun acc r => if acc.contains r.name then acc else acc ++ [r.name]) weaknesses

/-- The `for (const typeInfo of detailData.types)` loop of `fetchPokemonDetail`:
a type fetch with a non-success status is skipped (`continue`); a thrown type
fetch escapes to the outer `catch`, aborting the whole hydration (`none`). -/
def weaknessLoop (net : Network) : List TypeSlot → List String → Option (List String)
  | [], acc => some acc
  | t :: rest, acc =>
    match net.typeRel t.type.url with
    | .thrown => none
    | .httpErr => weaknessLoop net rest acc
    | .ok td => weaknessLoop net rest (addRelations acc td.damage_relations.double_damage_from)

/-- `fetchPokemonDetail(url)`: `null` on a non-success detail status, on a thrown
detail fetch, or on a throw anywhere inside the hydration (including a thrown
type fetch); otherwise the assembled `PokemonDetail`. -/
def fetchPokemonDetail (net : Network) (url : String) : Option PokemonDetail :=
  match net.detail url with
  | .thrown => none
  | .httpErr => none
  | .ok d =>
    match weaknessLoop net d.types [] with
    | none => none
    | some w => some ⟨d.name, d.id, d.sprites, d.types, w⟩

/-- The `useState` hooks of `App`, as one record. -/
structure AppState where
  allPokemonUrls : List Pokemon
  pokemonDetails : List PokemonDetail
  searchTerm : String
  loading : Bool
  error : Option String
deriving DecidableEq, Repr

/-- The initial `useState` values of `App`. -/
def initialState : AppState :=
  { allPokemonUrls := []
    pokemonDetails := []
    searchTerm := ""
    loading := true
    error := none }

/-- The batch hydration inside `fetchInitialDisplayData`:
`(await Promise.all(urls.map(u => fetchPokemonDetail(u.url)))).filter(p => p !== null)`. -/
def loadBatch (net : Network) (urls : List Pokemon) : List PokemonDetail :=
  (urls.map (fun u => fetchPokemonDetail net u.url)).filterMap id

/-- `fetchInitialDisplayData()`: sets `loading`/`error`, bails out while the index
is still empty, otherwise hydrates the first `POKEMON_DISPLAY_LIMIT` index entries
and stores the successful records.  The second component lists the detail URLs
whose hydration was started. -/
def fetchInitialDisplayData (net : Network) (s : AppState) : AppState × List String :=
  let s1 : AppState := { s with loading := true, error := none }
  if s1.allPokemonUrls.length = 0 then
    ({ s1 with loading := false }, [])
  else
    let initialBatchUrls := s1.allPokemonUrls.take POKEMON_DISPLAY_LIMIT
    let loadedDetails := loadBatch net initialBatchUrls
    ({ s1 with pokemonDetails := loadedDetails, loading := false },
      initialBatchUrls.map (·.url))

/-- The body of `fetchAllUrls` (the startup effect): on success store the listing
results; on a non-success status or a network error set the session error and
stop loading. -/
def fetchAllUrls (net : Network) (s : AppState) : AppState :=
  match net.listing with
  | .ok results => { s with allPokemonUrls := results }
  | .httpErr =>
      { s with error := some "Error al obtener la lista completa de Pokémon.",
               loading := false }
  | .thrown =>
      { s with error := some "Error al obtener la lista completa de Pokémon.",
               loading := false }

/-- The guard of the startup effect (line 130):
`if (allPokemonUrls.length === 0 && !error) fetchAllUrls()`. -/
def indexLoadGuard (s : AppState) : Bool :=
  s.allPokemonUrls.length = 0 && s.error = none

/-- The guard under which the second effect (line 138) starts detail hydration:
`allPokemonUrls.length > 0 && pokemonDetails.length === 0 && loading`. -/
def detailLoadGuard (s : AppState) : Bool :=
  s.allPokemonUrls.length > 0 && s.pokemonDetails.length = 0 && s.loading

/-- `handleSearchChange(event)` with `raw` the input value: lowercases the query,
resets to the initial window on an empty query, keeps the hydrated set when some
hydrated name contains the query, and otherwise falls back to the full index,
replacing the visible set with the single found record (or nothing).  The second
component lists the detail URLs whose hydration was started by the handler. -/
def handleSearchChange (net : Network) (s : AppState) (raw : String) :
    AppState × List String :=
  let value := strToLower raw
  let s1 : AppState := { s with searchTerm := value }
  if value = "" then
    fetchInitialDisplayData net { s1 with loading := true }
  else
    let filteredInDisplay := s1.pokemonDetails.filter (fun p => strIncludes p.name value)
    if filteredInDisplay.length > 0 then
      (s1, [])
    else
      let s2 : AppState := { s1 with loading := true }
      match s2.allPokemonUrls.find? (fun p => strIncludes p.name value) with
      | some foundPokemonUrl =>
        match fetchPokemonDetail net foundPokemonUrl.url with
        | some detail =>
            ({ s2 with pokemonDetails := [detail], loading := false },
              [foundPokemonUrl.url])
        | none =>
            ({ s2 with pokemonDetails := [], loading := false },
              [foundPokemonUrl.url])
      | none => ({ s2 with pokemonDetails := [], loading := false }, [])

/-- The `filteredPokemon` memo: the visible set of records. -/
def filteredPokemon (s : AppState) : List PokemonDetail :=
  if s.searchTerm = "" then s.pokemonDetails
  else s.pokemonDetails.filter (fun p => strIncludes (strToLower p.name) s.searchTerm)

/-- Whether the "No se encontraron Pokémon con ese nombre." block renders
(line 236: `!loading && filteredPokemon.length === 0 && searchTerm !== ""`). -/
def noResultsShown (s : AppState) : Bool :=
  !s.loading && (filteredPokemon s).length = 0 && s.searchTerm ≠ ""

/-- Whether the error block renders (line 224: `error && ...`). -/
def errorShown (s : AppState) : Bool :=
  s.error ≠ none

/-! ### Lemmas about ASCII lowercasing and substring search -/

theorem toNat_ofNat_plus32 {n : Nat} (h1 : 65 ≤ n) (h2 : n ≤ 90) :
    (Char.ofNat (n + 32)).toNat = n + 32 := by
  have hv : (n + 32).isValidChar := Or.inl (by omega)
  rw [Char.ofNat, dif_pos hv]
  simp [Char.ofNatAux, Char.toNat, UInt32.toNat, BitVec.toNat_ofNatLt]

theorem lowerChar_idem (c : Char) : lowerChar (lowerChar c) = lowerChar c := by
  unfold lowerChar
  by_cases h : 65 ≤ c.toNat ∧ c.toNat ≤ 90
  · rw [if_pos h, if_neg]
    have := toNat_ofNat_plus32 h.1 h.2
    omega
  · rw [if_neg h, if_neg h]

theorem strToLower_data (s : String) :
    (strToLower s).data = s.data.map lowerChar := rfl

theorem map_lowerChar_strToLower (s : String) :
    (strToLower s).data.map lowerChar = (strToLower s).data := by
  simp [strToLower_data, List.map_map, Function.comp_def, lowerChar_idem]

theorem leadsWith_map (f : Char → Char) :
    ∀ hay ns, leadsWith hay ns = true → leadsWith (hay.map f) (ns.map f) = true
  | _, [], _ => by cases ‹List Char› <;> rfl
  | [], _ :: _, h => by simp [leadsWith] at h
  | h :: hs, n :: ns, hp => by
    simp only [leadsWith, Bool.and_eq_true, decide_eq_true_eq] at hp
    simp only [List.map_cons, leadsWith, Bool.and_eq_true, decide_eq_true_eq]
    exact ⟨by rw [hp.1], leadsWith_map f hs ns hp.2⟩

theorem hasSub_map (f : Char → Char) :
    ∀ hay ns, hasSub hay ns = true → hasSub (hay.map f) (ns.map f) = true
  | [], ns, h => by
    cases ns with
    | nil => rfl
    | cons n t => simp [hasSub, leadsWith] at h
  | h :: t, ns, hp => by
    simp only [hasSub, Bool.or_eq_true] at hp
    simp only [List.map_cons, hasSub, Bool.or_eq_true]
    cases hp with
    | inl h1 =>
        exact Or.inl (by simpa using leadsWith_map f (h :: t) ns h1)
    | inr h2 => exact Or.inr (hasSub_map f t ns h2)

/-- A case-sensitive hit of the lowercased query on a raw name survives
lowercasing the name as well. -/
theorem strIncludes_lower {name q : String}
    (h : strIncludes name (strToLower q) = true) :
    strIncludes (strToLower name) (strToLower q) = true := by
  have h2 := hasSub_map lowerChar name.data (strToLower q).data h
  rw [map_lowerChar_strToLower] at h2
  exact h2

/-! ### Deduplication of the weakness list -/

theorem addRelations_nodup :
    ∀ (rels : List DamageRelation) (acc : List String),
      acc.Nodup → (addRelations acc rels).Nodup
  | [], _, h => h
  | r :: rest, acc, h => by
    rw [addRelations, List.foldl_cons, ← addRelations]
    apply addRelations_nodup rest
    by_cases hc : acc.contains r.name = true
    · rw [if_pos hc]; exact h
    · rw [if_neg hc]
      have hm : r.name ∉ acc := by simpa using hc
      simp [List.nodup_append, h, hm]

theorem weaknessLoop_nodup (net : Network) :
    ∀ (ts : List TypeSlot) (acc w : List String),
      acc.Nodup → weaknessLoop net ts acc = some w → w.Nodup
  | [], acc, w, h, hw => by
    rw [weaknessLoop] at hw
    cases hw
    exact h
  | t :: rest, acc, w, h, hw => by
    rw [weaknessLoop] at hw
    cases hnet : net.typeRel t.type.url with
    | thrown => rw [hnet] at hw; cases hw
    | httpErr => rw [hnet] at hw; exact weaknessLoop_nodup net rest acc w h hw
    | ok td =>
        rw [hnet] at hw
        exact weaknessLoop_nodup net rest _ w (addRelations_nodup _ acc h) hw

/-! ### Batch hydration lemmas -/

theorem mem_loadBatch {net : Network} {urls : List Pokemon} {d : PokemonDetail} :
    d ∈ loadBatch net urls ↔ ∃ u ∈ urls, fetchPokemonDetail net u.url = some d := by
  simp [loadBatch, List.mem_filterMap, List.mem_map]

theorem loadBatch_length_le {net : Network} {urls : List Pokemon} :
    (loadBatch net urls).length ≤ urls.length := by
  calc (loadBatch net urls).length
      ≤ (urls.map (fun u => fetchPokemonDetail net u.url)).length :=
        List.length_filterMap_le _ _
    _ = urls.length := List.length_map _ _

/-- With a non-empty index, the state after `fetchInitialDisplayData` holds the
hydration of the first `POKEMON_DISPLAY_LIMIT` index entries. -/
theorem fetchInitialDisplayData_details (net : Network) (s : AppState)
    (hne : s.allPokemonUrls.length ≠ 0) :
    ((fetchInitialDisplayData net s).1).pokemonDetails
      = loadBatch net (s.allPokemonUrls.take POKEMON_DISPLAY_LIMIT) ∧
    (fetchInitialDisplayData net s).2
      = (s.allPokemonUrls.take POKEMON_DISPLAY_LIMIT).map (·.url) := by
  constructor <;> simp [fetchInitialDisplayData, hne]

/-- C1: every hydrated `CreatureRecord` produced by `fetchPokemonDetail` has a
`weaknesses` list without duplicate type names, even when the creature's types
have overlapping `double_damage_from` lists. -/
theorem fetchPokemonDetail_weaknesses_nodup (net : Network) (url : String)
    (d : PokemonDetail) (h : fetchPokemonDetail net url = some d) :
    d.weaknesses.Nodup := by
  unfold fetchPokemonDetail at h
  cases hdet : net.detail url with
  | thrown => rw [hdet] at h; cases h
  | httpErr => rw [hdet] at h; cases h
  | ok dd =>
    rw [hdet] at h
    dsimp only at h
    cases hw : weaknessLoop net dd.types [] with
    | none => rw [hw] at h; cases h
    | some w =>
      rw [hw] at h
      dsimp only at h
      cases h
      exact weaknessLoop_nodup net dd.types [] w List.nodup_nil hw

/-- A creature with two types whose damage-relation lists overlap on `"fire"`. -/
def netDedup : Network :=
  { listing := .ok []
    detail := fun _ => .ok ⟨"bulbasaur", 1, ⟨"img"⟩,
      [⟨1, ⟨"grass", "tg"⟩⟩, ⟨2, ⟨"poison", "tp"⟩⟩]⟩
    typeRel := fun u =>
      if u = "tg" then .ok ⟨⟨[⟨"fire"⟩, ⟨"ice"⟩]⟩⟩
      else .ok ⟨⟨[⟨"fire"⟩, ⟨"ground"⟩]⟩⟩ }

/-- The record `netDedup` hydrates: `"fire"` appears exactly once. -/
def recDedup : PokemonDetail :=
  ⟨"bulbasaur", 1, ⟨"img"⟩, [⟨1, ⟨"grass", "tg"⟩⟩, ⟨2, ⟨"poison", "tp"⟩⟩],
    ["fire", "ice", "ground"]⟩

theorem fetchPokemonDetail_weaknesses_nodup_witness :
    fetchPokemonDetail netDedup "u" = some recDedup ∧ recDedup.weaknesses.Nodup :=
  ⟨by decide, fetchPokemonDetail_weaknesses_nodup netDedup "u" recDedup (by decide)⟩

/-- C2: in a batch hydration, entries whose detail fetch failed contribute no
record at all (every output record is the full hydration of some batch entry),
and every entry whose hydration succeeded still has its record in the output. -/
theorem batch_hydration_fault_isolation (net : Network) (s : AppState)
    (hne : s.allPokemonUrls.length ≠ 0) :
    (∀ d ∈ ((fetchInitialDisplayData net s).1).pokemonDetails,
        ∃ u ∈ s.allPokemonUrls.take POKEMON_DISPLAY_LIMIT,
          fetchPokemonDetail net u.url = some d) ∧
    (∀ u ∈ s.allPokemonUrls.take POKEMON_DISPLAY_LIMIT, ∀ d : PokemonDetail,
        fetchPokemonDetail net u.url = some d →
          d ∈ ((fetchInitialDisplayData net s).1).pokemonDetails) := by
  rw [(fetchInitialDisplayData_details net s hne).1]
  constructor
  · intro d hd
    exact mem_loadBatch.mp hd
  · intro u hu d hd
    exact mem_loadBatch.mpr ⟨u, hu, hd⟩

/-- A two-entry index whose first detail fetch fails and whose second succeeds. -/
def netBatch : Network :=
  { listing := .ok [⟨"a", "ua"⟩, ⟨"b", "ub"⟩]
    detail := fun u => if u = "ub" then .ok ⟨"b", 2, ⟨"i"⟩, []⟩ else .httpErr
    typeRel := fun _ => .httpErr }

/-- State after the index load against `netBatch`. -/
def stBatch : AppState :=
  { allPokemonUrls := [⟨"a", "ua"⟩, ⟨"b", "ub"⟩]
    pokemonDetails := []
    searchTerm := ""
    loading := true
    error := none }

theorem batch_hydration_fault_isolation_witness :
    (⟨"b", 2, ⟨"i"⟩, [], []⟩ : PokemonDetail) ∈
      ((fetchInitialDisplayData netBatch stBatch).1).pokemonDetails :=
  (batch_hydration_fault_isolation netBatch stBatch (by decide)).2
    ⟨"b", "ub"⟩ (by decide) _ (by decide)

/-- C9: the initial hydration processes exactly the first
`POKEMON_DISPLAY_LIMIT` index entries in index order, so the hydrated set has at
most `POKEMON_DISPLAY_LIMIT` records and every record originates from that
prefix of the index. -/
theorem initial_window_bounded (net : Network) (s : AppState)
    (hne : s.allPokemonUrls.length ≠ 0) :
    ((fetchInitialDisplayData net s).1).pokemonDetails
        = loadBatch net (s.allPokemonUrls.take POKEMON_DISPLAY_LIMIT) ∧
    ((fetchInitialDisplayData net s).1).pokemonDetails.length ≤ POKEMON_DISPLAY_LIMIT ∧
    (∀ d ∈ ((fetchInitialDisplayData net s).1).pokemonDetails,
        ∃ u ∈ s.allPokemonUrls.take POKEMON_DISPLAY_LIMIT,
          fetchPokemonDetail net u.url = some d) ∧
    (fetchInitialDisplayData net s).2
        = (s.allPokemonUrls.take POKEMON_DISPLAY_LIMIT).map (·.url) := by
  obtain ⟨h1, h2⟩ := fetchInitialDisplayData_details net s hne
  refine ⟨h1, ?_, ?_, h2⟩
  · rw [h1]
    calc (loadBatch net (s.allPokemonUrls.take POKEMON_DISPLAY_LIMIT)).length
        ≤ (s.allPokemonUrls.take POKEMON_DISPLAY_LIMIT).length := loadBatch_length_le
      _ ≤ POKEMON_DISPLAY_LIMIT := by
          rw [List.length_take]
          exact Nat.min_le_left _ _
  · intro d hd
    rw [h1] at hd
    exact mem_loadBatch.mp hd

/-- The weakness union restricted to the types whose relation fetch returned
successfully: any type fetch that did not return `ok` contributes nothing. -/
def okTypeWeaknesses (net : Network) : List TypeSlot → List String → List String
  | [], acc => acc
  | t :: rest, acc =>
    match net.typeRel t.type.url with
    | .ok td =>
        okTypeWeaknesses net rest (addRelations acc td.damage_relations.double_damage_from)
    | .httpErr => okTypeWeaknesses net rest acc
    | .thrown => okTypeWeaknesses net rest acc

theorem weaknessLoop_eq_okTypeWeaknesses (net : Network) :
    ∀ (ts : List TypeSlot) (acc : List String),
      (∀ t ∈ ts, net.typeRel t.type.url ≠ .thrown) →
      weaknessLoop net ts acc = some (okTypeWeaknesses net ts acc)
  | [], _, _ => rfl
  | t :: rest, acc, h => by
    cases hnet : net.typeRel t.type.url with
    | thrown => exact absurd hnet (h t (List.mem_cons_self t rest))
    | httpErr =>
        rw [weaknessLoop, okTypeWeaknesses, hnet]
        exact weaknessLoop_eq_okTypeWeaknesses net rest acc
          (fun x hx => h x (List.mem_cons_of_mem t hx))
    | ok td =>
        rw [weaknessLoop, okTypeWeaknesses, hnet]
        exact weaknessLoop_eq_okTypeWeaknesses net rest _
          (fun x hx => h x (List.mem_cons_of_mem t hx))

/-- A creature whose detail fetch succeeds but whose sole type-relation fetch
throws (rejected promise). -/
def netTypeThrow : Network :=
  { listing := .ok []
    detail := fun _ => .ok ⟨"mew", 151, ⟨"i"⟩, [⟨1, ⟨"psychic", "tp"⟩⟩]⟩
    typeRel := fun _ => .thrown }

/-- C5 counterexample: the creature's detail fetch succeeded and one of its
types' damage-relation fetches failed (a rejected promise), yet no record at all
is produced — the throw escapes the type loop into the outer `catch`, so the
whole hydration returns `null` instead of a record with partial weakness data. -/
theorem type_throw_drops_record :
    netTypeThrow.detail "u" = .ok ⟨"mew", 151, ⟨"i"⟩, [⟨1, ⟨"psychic", "tp"⟩⟩]⟩ ∧
    netTypeThrow.typeRel "tp" = .thrown ∧
    fetchPokemonDetail netTypeThrow "u" = none := by decide

/-- C5 (amended): when the detail fetch succeeds and no type-relation fetch
throws, a type-relation fetch returning a non-success status is skipped and the
record is still produced, with weaknesses accumulated from exactly the types
whose fetches returned successfully. -/
theorem type_httpErr_skipped (net : Network) (url : String) (dd : DetailData)
    (hdet : net.detail url = .ok dd)
    (hnothrow : ∀ t ∈ dd.types, net.typeRel t.type.url ≠ .thrown) :
    fetchPokemonDetail net url =
      some ⟨dd.name, dd.id, dd.sprites, dd.types, okTypeWeaknesses net dd.types []⟩ := by
  unfold fetchPokemonDetail
  rw [hdet]
  dsimp only
  rw [weaknessLoop_eq_okTypeWeaknesses net dd.types [] hnothrow]

/-- A two-type creature: the first type's relation fetch returns a non-success
status, the second succeeds. -/
def netTypeSkip : Network :=
  { listing := .ok []
    detail := fun _ => .ok ⟨"golem", 76, ⟨"i"⟩,
      [⟨1, ⟨"rock", "tr"⟩⟩, ⟨2, ⟨"ground", "tg"⟩⟩]⟩
    typeRel := fun u =>
      if u = "tg" then .ok ⟨⟨[⟨"water"⟩, ⟨"grass"⟩]⟩⟩ else .httpErr }

/-- The detail JSON served by `netTypeSkip`. -/
def ddSkip : DetailData :=
  ⟨"golem", 76, ⟨"i"⟩, [⟨1, ⟨"rock", "tr"⟩⟩, ⟨2, ⟨"ground", "tg"⟩⟩]⟩

theorem type_httpErr_skipped_witness :
    fetchPokemonDetail netTypeSkip "u" =
      some ⟨ddSkip.name, ddSkip.id, ddSkip.sprites, ddSkip.types,
        okTypeWeaknesses netTypeSkip ddSkip.types []⟩ ∧
    okTypeWeaknesses netTypeSkip ddSkip.types [] = ["water", "grass"] :=
  ⟨type_httpErr_skipped netTypeSkip "u" ddSkip (by decide) (by decide), by decide⟩

theorem initial_window_bounded_witness :
    ((fetchInitialDisplayData netBatch stBatch).1).pokemonDetails
        = loadBatch netBatch (stBatch.allPokemonUrls.take POKEMON_DISPLAY_LIMIT) ∧
    ((fetchInitialDisplayData netBatch stBatch).1).pokemonDetails.length
        ≤ POKEMON_DISPLAY_LIMIT :=
  ⟨(initial_window_bounded netBatch stBatch (by decide)).1,
    (initial_window_bounded netBatch stBatch (by decide)).2.1⟩

/-! ### Unfolding lemmas for the search handler -/

theorem fetchInitialDisplayData_searchTerm (net : Network) (t : AppState) :
    ((fetchInitialDisplayData net t).1).searchTerm = t.searchTerm := by
  by_cases h : t.allPokemonUrls.length = 0 <;> simp [fetchInitialDisplayData, h]

theorem fetchInitialDisplayData_loading (net : Network) (t : AppState) :
    ((fetchInitialDisplayData net t).1).loading = false := by
  by_cases h : t.allPokemonUrls.length = 0 <;> simp [fetchInitialDisplayData, h]

theorem handleSearchChange_empty (net : Network) (s : AppState) (raw : String)
    (hval : strToLower raw = "") :
    handleSearchChange net s raw =
      fetchInitialDisplayData net { s with searchTerm := strToLower raw, loading := true } := by
  simp only [handleSearchChange]
  rw [if_pos hval]

theorem handleSearchChange_hit (net : Network) (s : AppState) (raw : String)
    (hval : strToLower raw ≠ "")
    (hmatch : (s.pokemonDetails.filter fun p => strIncludes p.name (strToLower raw)).length > 0) :
    handleSearchChange net s raw = ({ s with searchTerm := strToLower raw }, []) := by
  simp only [handleSearchChange]
  rw [if_neg hval, if_pos hmatch]

theorem handleSearchChange_fallback_some (net : Network) (s : AppState) (raw : String)
    (found : Pokemon) (detail : PokemonDetail)
    (hval : strToLower raw ≠ "")
    (hmiss : s.pokemonDetails.filter (fun p => strIncludes p.name (strToLower raw)) = [])
    (hfind : s.allPokemonUrls.find? (fun p => strIncludes p.name (strToLower raw)) = some found)
    (hfetch : fetchPokemonDetail net found.url = some detail) :
    handleSearchChange net s raw =
      ({ s with searchTerm := strToLower raw, pokemonDetails := [detail], loading := false },
        [found.url]) := by
  simp only [handleSearchChange]
  rw [if_neg hval, hmiss]
  rw [if_neg (by simp : ¬ ([] : List PokemonDetail).length > 0)]
  rw [hfind]
  dsimp only
  rw [hfetch]

theorem handleSearchChange_fallback_none (net : Network) (s : AppState) (raw : String)
    (found : Pokemon)
    (hval : strToLower raw ≠ "")
    (hmiss : s.pokemonDetails.filter (fun p => strIncludes p.name (strToLower raw)) = [])
    (hfind : s.allPokemonUrls.find? (fun p => strIncludes p.name (strToLower raw)) = some found)
    (hfetch : fetchPokemonDetail net found.url = none) :
    handleSearchChange net s raw =
      ({ s with searchTerm := strToLower raw, pokemonDetails := [], loading := false },
        [found.url]) := by
  simp only [handleSearchChange]
  rw [if_neg hval, hmiss]
  rw [if_neg (by simp : ¬ ([] : List PokemonDetail).length > 0)]
  rw [hfind]
  dsimp only
  rw [hfetch]

theorem handleSearchChange_fallback_notfound (net : Network) (s : AppState) (raw : String)
    (hval : strToLower raw ≠ "")
    (hmiss : s.pokemonDetails.filter (fun p => strIncludes p.name (strToLower raw)) = [])
    (hfind : s.allPokemonUrls.find? (fun p => strIncludes p.name (strToLower raw)) = none) :
    handleSearchChange net s raw =
      ({ s with searchTerm := strToLower raw, pokemonDetails := [], loading := false },
        []) := by
  simp only [handleSearchChange]
  rw [if_neg hval, hmiss]
  rw [if_neg (by simp : ¬ ([] : List PokemonDetail).length > 0)]
  rw [hfind]

/-- C4: an empty query (after any prior search) re-runs the initial-window
hydration: the visible set is again the full hydrated display window, with the
same count as an initial load over the same index, and the whole window's
hydration is re-issued. -/
theorem empty_query_resets (net : Network) (s : AppState)
    (hne : s.allPokemonUrls.length ≠ 0) :
    ((handleSearchChange net s "").1).pokemonDetails
        = loadBatch net (s.allPokemonUrls.take POKEMON_DISPLAY_LIMIT) ∧
    ((handleSearchChange net s "").1).searchTerm = "" ∧
    filteredPokemon ((handleSearchChange net s "").1)
        = ((handleSearchChange net s "").1).pokemonDetails ∧
    ((handleSearchChange net s "").1).pokemonDetails.length
        = ((fetchInitialDisplayData net
            { initialState with allPokemonUrls := s.allPokemonUrls }).1).pokemonDetails.length ∧
    (handleSearchChange net s "").2
        = (s.allPokemonUrls.take POKEMON_DISPLAY_LIMIT).map (·.url) := by
  have hstep := handleSearchChange_empty net s "" (by decide)
  have hne0 : ({ s with searchTerm := strToLower "", loading := true } : AppState).allPokemonUrls.length ≠ 0 := hne
  obtain ⟨h1, h2⟩ := fetchInitialDisplayData_details net _ hne0
  have hne1 : ({ initialState with allPokemonUrls := s.allPokemonUrls } : AppState).allPokemonUrls.length ≠ 0 := hne
  obtain ⟨h3, _⟩ := fetchInitialDisplayData_details net _ hne1
  rw [hstep]
  have hterm : ((fetchInitialDisplayData net
      { s with searchTerm := strToLower "", loading := true }).1).searchTerm = "" := by
    rw [fetchInitialDisplayData_searchTerm]
    show strToLower "" = ""
    decide
  refine ⟨h1, hterm, ?_, ?_, h2⟩
  · rw [filteredPokemon, if_pos hterm]
  · rw [h1, h3]

/-- A hydrated record whose stored name is not all-lowercase. -/
def recMixedCase : PokemonDetail := ⟨"Pikachu", 25, ⟨"img"⟩, [], []⟩

/-- The dead network: every request fails with a rejected promise. -/
def netNone : Network :=
  { listing := .thrown, detail := fun _ => .thrown, typeRel := fun _ => .thrown }

/-- A state whose hydrated window holds only `recMixedCase`, over an empty index. -/
def stMixedCase : AppState :=
  { allPokemonUrls := []
    pokemonDetails := [recMixedCase]
    searchTerm := ""
    loading := false
    error := none }

/-- C7 counterexample: the query `"PIKA"` matches the hydrated record
`"Pikachu"` as a case-insensitive substring, yet the handler's in-window check
compares the lowercased query against the raw stored name, misses, falls
through to the index scan, and empties the visible set instead of filtering to
the match. -/
theorem case_insensitive_hit_not_kept :
    strIncludes (strToLower recMixedCase.name) (strToLower "PIKA") = true ∧
    (handleSearchChange netNone stMixedCase "PIKA").1.pokemonDetails = [] ∧
    filteredPokemon (handleSearchChange netNone stMixedCase "PIKA").1 = [] := by decide

/-- C7 (amended): for a non-empty query, if at least one hydrated record's raw
name contains the lowercased query as an exact substring, the hydrated set is
kept unchanged, no detail hydration is issued, and the visible set is exactly
the hydrated records whose lowercased name contains the query.  (The in-window
check is case-sensitive on the stored name; only the query is lowercased.) -/
theorem hydrated_match_keeps_window (net : Network) (s : AppState) (raw : String)
    (hval : strToLower raw ≠ "")
    (hmatch : (s.pokemonDetails.filter fun p => strIncludes p.name (strToLower raw)).length > 0) :
    (handleSearchChange net s raw).1.pokemonDetails = s.pokemonDetails ∧
    (handleSearchChange net s raw).2 = [] ∧
    filteredPokemon (handleSearchChange net s raw).1
        = s.pokemonDetails.filter fun p => strIncludes (strToLower p.name) (strToLower raw) := by
  rw [handleSearchChange_hit net s raw hval hmatch]
  refine ⟨rfl, rfl, ?_⟩
  rw [filteredPokemon, if_neg hval]

/-- An all-lowercase hydrated record over an empty index. -/
def stLowerCase : AppState :=
  { allPokemonUrls := []
    pokemonDetails := [⟨"pikachu", 25, ⟨"img"⟩, [], []⟩]
    searchTerm := ""
    loading := false
    error := none }

theorem hydrated_match_keeps_window_witness :
    (handleSearchChange netNone stLowerCase "PIKA").1.pokemonDetails
        = stLowerCase.pokemonDetails ∧
    (handleSearchChange netNone stLowerCase "PIKA").2 = [] :=
  ⟨(hydrated_match_keeps_window netNone stLowerCase "PIKA" (by decide) (by decide)).1,
   (hydrated_match_keeps_window netNone stLowerCase "PIKA" (by decide) (by decide)).2.1⟩

/-- A state after a prior non-empty search against `netBatch`'s index. -/
def stPrior : AppState :=
  { allPokemonUrls := [⟨"a", "ua"⟩, ⟨"b", "ub"⟩]
    pokemonDetails := [⟨"b", 2, ⟨"i"⟩, [], []⟩]
    searchTerm := "b"
    loading := false
    error := none }

theorem empty_query_resets_witness :
    ((handleSearchChange netBatch stPrior "").1).pokemonDetails
        = loadBatch netBatch (stPrior.allPokemonUrls.take POKEMON_DISPLAY_LIMIT) ∧
    ((handleSearchChange netBatch stPrior "").1).searchTerm = "" :=
  ⟨(empty_query_resets netBatch stPrior (by decide)).1,
   (empty_query_resets netBatch stPrior (by decide)).2.1⟩

/-- C3: a non-empty query that misses the hydrated window but hits an index
entry hydrates exactly that one entry, replaces the visible set with that single
record, and the record's name matches the query (assuming the detail record
carries the index entry's name, as the API schema guarantees). -/
theorem index_fallback_single_visible (net : Network) (s : AppState) (raw : String)
    (found : Pokemon) (detail : PokemonDetail)
    (hval : strToLower raw ≠ "")
    (hmiss : s.pokemonDetails.filter (fun p => strIncludes p.name (strToLower raw)) = [])
    (hfind : s.allPokemonUrls.find? (fun p => strIncludes p.name (strToLower raw)) = some found)
    (hfetch : fetchPokemonDetail net found.url = some detail)
    (hname : detail.name = found.name) :
    (handleSearchChange net s raw).1.pokemonDetails = [detail] ∧
    (handleSearchChange net s raw).2 = [found.url] ∧
    filteredPokemon (handleSearchChange net s raw).1 = [detail] ∧
    strIncludes (strToLower detail.name) (strToLower raw) = true := by
  have hfound : strIncludes found.name (strToLower raw) = true := by
    simpa using List.find?_some hfind
  have hdet : strIncludes (strToLower detail.name) (strToLower raw) = true := by
    rw [hname]
    exact strIncludes_lower hfound
  rw [handleSearchChange_fallback_some net s raw found detail hval hmiss hfind hfetch]
  refine ⟨rfl, rfl, ?_, hdet⟩
  rw [filteredPokemon, if_neg hval]
  simp [hdet]

/-- An index holding one entry whose hydration succeeds. -/
def netPika : Network :=
  { listing := .ok [⟨"pikachu", "up"⟩]
    detail := fun u => if u = "up" then .ok ⟨"pikachu", 25, ⟨"i"⟩, []⟩ else .httpErr
    typeRel := fun _ => .httpErr }

/-- A state with `netPika`'s index loaded and an empty hydrated window. -/
def stPika : AppState :=
  { allPokemonUrls := [⟨"pikachu", "up"⟩]
    pokemonDetails := []
    searchTerm := ""
    loading := false
    error := none }

/-- The record `netPika` hydrates for `"up"`. -/
def detPika : PokemonDetail := ⟨"pikachu", 25, ⟨"i"⟩, [], []⟩

theorem index_fallback_single_visible_witness :
    (handleSearchChange netPika stPika "pika").1.pokemonDetails = [detPika] ∧
    filteredPokemon (handleSearchChange netPika stPika "pika").1 = [detPika] :=
  ⟨(index_fallback_single_visible netPika stPika "pika" ⟨"pikachu", "up"⟩ detPika
      (by decide) (by decide) (by decide) (by decide) (by decide)).1,
   (index_fallback_single_visible netPika stPika "pika" ⟨"pikachu", "up"⟩ detPika
      (by decide) (by decide) (by decide) (by decide) (by decide)).2.2.1⟩

/-- C8: a non-empty query matching no hydrated record and no index entry leaves
an empty visible set, renders the "no results" indication, and issues no
hydration. -/
theorem no_match_anywhere_empty_visible (net : Network) (s : AppState) (raw : String)
    (hval : strToLower raw ≠ "")
    (hmiss : s.pokemonDetails.filter (fun p => strIncludes p.name (strToLower raw)) = [])
    (hfind : s.allPokemonUrls.find? (fun p => strIncludes p.name (strToLower raw)) = none) :
    (handleSearchChange net s raw).1.pokemonDetails = [] ∧
    filteredPokemon (handleSearchChange net s raw).1 = [] ∧
    noResultsShown (handleSearchChange net s raw).1 = true ∧
    (handleSearchChange net s raw).2 = [] := by
  rw [handleSearchChange_fallback_notfound net s raw hval hmiss hfind]
  refine ⟨rfl, ?_, ?_, rfl⟩
  · rw [filteredPokemon, if_neg hval]
    rfl
  · simp [noResultsShown, filteredPokemon, hval]

theorem no_match_anywhere_empty_visible_witness :
    (handleSearchChange netPika stPika "zzz").1.pokemonDetails = [] ∧
    noResultsShown (handleSearchChange netPika stPika "zzz").1 = true :=
  ⟨(no_match_anywhere_empty_visible netPika stPika "zzz"
      (by decide) (by decide) (by decide)).1,
   (no_match_anywhere_empty_visible netPika stPika "zzz"
      (by decide) (by decide) (by decide)).2.2.1⟩

/-- C10: when the single index match's own hydration fails, the visible set
becomes empty — the previously displayed window is discarded, not retained. -/
theorem fallback_hydration_failure_discards (net : Network) (s : AppState) (raw : String)
    (found : Pokemon)
    (hval : strToLower raw ≠ "")
    (hmiss : s.pokemonDetails.filter (fun p => strIncludes p.name (strToLower raw)) = [])
    (hfind : s.allPokemonUrls.find? (fun p => strIncludes p.name (strToLower raw)) = some found)
    (hfail : fetchPokemonDetail net found.url = none) :
    (handleSearchChange net s raw).1.pokemonDetails = [] ∧
    filteredPokemon (handleSearchChange net s raw).1 = [] ∧
    (handleSearchChange net s raw).2 = [found.url] := by
  rw [handleSearchChange_fallback_none net s raw found hval hmiss hfind hfail]
  refine ⟨rfl, ?_, rfl⟩
  rw [filteredPokemon, if_neg hval]
  rfl

/-- `netPika`'s index, but every detail fetch returns a non-success status. -/
def netPikaFail : Network :=
  { listing := .ok [⟨"pikachu", "up"⟩]
    detail := fun _ => .httpErr
    typeRel := fun _ => .httpErr }

/-- A hydrated window (one unrelated record) over `netPikaFail`'s index. -/
def stWindow : AppState :=
  { allPokemonUrls := [⟨"pikachu", "up"⟩]
    pokemonDetails := [⟨"bulbasaur", 1, ⟨"i"⟩, [], []⟩]
    searchTerm := ""
    loading := false
    error := none }

theorem fallback_hydration_failure_discards_witness :
    (handleSearchChange netPikaFail stWindow "pika").1.pokemonDetails = [] ∧
    filteredPokemon (handleSearchChange netPikaFail stWindow "pika").1 = [] :=
  ⟨(fallback_hydration_failure_discards netPikaFail stWindow "pika" ⟨"pikachu", "up"⟩
      (by decide) (by decide) (by decide) (by decide)).1,
   (fallback_hydration_failure_discards netPikaFail stWindow "pika" ⟨"pikachu", "up"⟩
      (by decide) (by decide) (by decide) (by decide)).2.1⟩

/-- C6 (amended): on an index-load failure (non-success status or network
error) the session error is shown, loading stops, the hydrated set stays empty,
and neither the index-fetch effect nor the detail-hydration effect can fire
while the error state persists; the failure is not permanent for the session,
though — an empty-query search event clears the error and re-arms the
index-fetch effect guard, so the index fetch can be retried. -/
theorem index_load_failure_halts (net : Network)
    (hfail : net.listing = .httpErr ∨ net.listing = .thrown) :
    errorShown (fetchAllUrls net initialState) = true ∧
    (fetchAllUrls net initialState).loading = false ∧
    (fetchAllUrls net initialState).allPokemonUrls = [] ∧
    indexLoadGuard (fetchAllUrls net initialState) = false ∧
    detailLoadGuard (fetchAllUrls net initialState) = false ∧
    (handleSearchChange net (fetchAllUrls net initialState) "").1.error = none ∧
    indexLoadGuard (handleSearchChange net (fetchAllUrls net initialState) "").1 = true := by
  have hstate : fetchAllUrls net initialState =
      { initialState with
          error := some "Error al obtener la lista completa de Pokémon.",
          loading := false } := by
    cases hfail with
    | inl h => rw [fetchAllUrls, h]
    | inr h => rw [fetchAllUrls, h]
  rw [hstate, handleSearchChange_empty net _ "" (by decide)]
  refine ⟨by decide, by decide, by decide, by decide, by decide, ?_, ?_⟩ <;>
    simp [fetchInitialDisplayData, indexLoadGuard, initialState]

theorem index_load_failure_halts_witness :
    errorShown (fetchAllUrls netNone initialState) = true ∧
    indexLoadGuard (fetchAllUrls netNone initialState) = false :=
  ⟨(index_load_failure_halts netNone (Or.inr rfl)).1,
   (index_load_failure_halts netNone (Or.inr rfl)).2.2.2.1⟩

/-- C6 counterexample: after the failed index load the error is shown and the
startup-effect guard blocks any retry; but once a non-empty search is typed and
then cleared, the empty-query reset clears the error, so the guard re-arms and
the index fetch is retried within the same session. -/
theorem index_refetch_after_clearing_search :
    errorShown (fetchAllUrls netNone initialState) = true ∧
    indexLoadGuard (fetchAllUrls netNone initialState) = false ∧
    indexLoadGuard
        ((handleSearchChange netNone (fetchAllUrls netNone initialState) "a").1) = false ∧
    ((handleSearchChange netNone
        ((handleSearchChange netNone (fetchAllUrls netNone initialState) "a").1) "").1).error
      = none ∧
    indexLoadGuard ((handleSearchChange netNone
        ((handleSearchChange netNone (fetchAllUrls netNone initialState) "a").1) "").1)
      = true := by decide
